import Mathlib

/-!
Verification of the proxy anonymization core: the URI decoder utility,
the proxy descriptor validation, the anonymization decision, the
process-wide registry of anonymized proxy servers, the open/close
lifecycle and the tunnel event bridge.

The upstream forwarding server collaborator (`Server`, `SOCKS_PROTOCOLS`),
the `nodeify` callback adapter and the platform URL parser and
percent-decoder are external to the translated module; they are modelled
from the specification's description of their contracts.  Asynchronous
network effects (`listen`, `close`) are modelled by explicit outcome
oracles passed as function arguments, and each operation returns,
besides its settled result, the registry it leaves behind, the list of
servers it constructed and the list of legacy-callback invocations it
performed.
-/

/-- Result of a parse of a proxy URL by the platform URL parser:
the fields of the parsed URL object that the module reads.
`protocol` keeps its trailing colon (as in the platform object),
`href` is the serialized form used in the scheme error message. -/
structure ParsedUrl where
  protocol : String
  username : String
  password : String
  href : String
deriving DecidableEq, Repr

/-- Configuration handed to the upstream forwarding server constructor,
exactly the fields the module passes: bind port and host, and the
result of the prepareRequestFunction it installs (no inbound
authentication, the upstream proxy URL, the ignore-certificate flag). -/
structure ServerConfig where
  port : Int
  host : String
  requestAuthentication : Bool
  upstreamProxyUrl : String
  ignoreUpstreamProxyCertificate : Bool
deriving DecidableEq, Repr

/-- A live forwarding server as the registry owns it: its configuration,
the port assigned by a successful listen, and the observers attached to
its tunnelConnectResponded event stream (observers are identified by
numbers in the model). -/
structure Server where
  config : ServerConfig
  port : Nat
  listeners : List Nat
deriving DecidableEq, Repr

/-- The process-wide dictionary `anonymizedProxyUrlToServer`, key is the
value returned from anonymizeProxy, value is the Server instance. -/
abbrev Registry : Type := List (String × Server)

/-- Key lookup in the dictionary. -/
def Registry.find? : Registry → String → Option Server
  | [], _ => none
  | (k, v) :: rest, key => if k = key then some v else Registry.find? rest key

/-- Key removal (the `delete` statement). -/
def Registry.erase : Registry → String → Registry
  | [], _ => []
  | (k, v) :: rest, key =>
      if k = key then Registry.erase rest key else (k, v) :: Registry.erase rest key

/-- Key assignment (the `dict[key] = value` statement). -/
def Registry.insert (r : Registry) (key : String) (v : Server) : Registry :=
  (key, v) :: Registry.erase r key

/-- Errors the module can settle with, classified by the specification's
taxonomy; each validation constructor carries the exact message thrown
by the code, and `serverError` carries a collaborator failure
propagated unmodified. -/
inductive JsError where
  | invalidPort (message : String)
  | invalidUrl (message : String)
  | unsupportedScheme (message : String)
  | invalidArgument (message : String)
  | serverError (e : String)
deriving DecidableEq, Repr

/-- The message of the out-of-range port throw. -/
def invalidPortMessage : String :=
  "Invalid \"port\" option: only values equals or between 0-65535 are valid"

/-- Modelled from the spec: the platform URL constructor throwing on an
unparsable URL (`InvalidProxyUrl` in the taxonomy); the message is not
read by the module, we record the offending string. -/
def invalidUrlMessage (u : String) : String := "Invalid URL: " ++ u

/-- Remove the first colon of a character list (the semantics of the
JavaScript `replace` with a plain-string pattern, which substitutes only
the first occurrence). -/
def removeFirstColon : List Char → List Char
  | [] => []
  | c :: rest => if c = ':' then rest else c :: removeFirstColon rest

/-- A scheme identifier with its first colon removed. -/
def stripColon (p : String) : String := String.mk (removeFirstColon p.data)

/-- The message of the unsupported-scheme throw, built exactly as the
code builds it: it enumerates http, https and every collaborator-declared
SOCKS scheme (colon stripped, quoted, comma separated) and ends with the
serialized parsed URL. -/
def schemeErrorMessage (socks : List String) (parsed : ParsedUrl) : String :=
  "Invalid \"proxyUrl\" provided: URL must have one of the following protocols: \"http\", \"https\", "
    ++ String.intercalate ", " (socks.map (fun p => "\"" ++ stripColon p ++ "\""))
    ++ " (was \"" ++ parsed.href ++ "\")"

/-- The message of the non-string argument throw in closeAnonymizedProxy. -/
def closeArgMessage : String := "The \"anonymizedProxyUrl\" parameter must be a string"

/-- Modelled from the spec: the SOCKS scheme identifiers declared by the
external collaborator (the exact variants are the collaborator's
enumeration; the module only checks membership). -/
def SOCKS_PROTOCOLS : List String := ["socks4:", "socks4a:", "socks5:", "socks5h:"]

/-- Outcome of the collaborator's asynchronous `listen()`: resolves
exposing the assigned port, or rejects with a failure. -/
inductive ListenResult where
  | ok (assignedPort : Nat)
  | fail (e : String)
deriving DecidableEq, Repr

instance {ε α : Type} [DecidableEq ε] [DecidableEq α] : DecidableEq (Except ε α) := fun a b =>
  match a, b with
  | .ok x, .ok y => if h : x = y then .isTrue (by rw [h]) else .isFalse (by simp [h])
  | .error x, .error y => if h : x = y then .isTrue (by rw [h]) else .isFalse (by simp [h])
  | .ok _, .error _ => .isFalse (by simp)
  | .error _, .ok _ => .isFalse (by simp)

/-- Modelled from the spec: `nodeify(promise, callback)` — when the
optional legacy callback is supplied it is invoked exactly once with the
settled outcome of the promise, and the same promise is returned to the
caller.  We return the settled result paired with the list of callback
invocations performed (empty when no callback was supplied). -/
def nodeify {α : Type} (r : Except JsError α) (cb : Bool) :
    Except JsError α × List (Except JsError α) :=
  (r, if cb then [r] else [])

/-- What a call to the module settles with: the result of the returned
promise, the registry it leaves behind, the server configurations it
constructed during the call, and the legacy-callback invocations it
performed. -/
structure Outcome (α : Type) where
  result : Except JsError α
  registry : Registry
  created : List ServerConfig
  calls : List (Except JsError α)
deriving Repr

/-- The first argument of anonymizeProxy: a bare proxy URL string, or an
options object with url, port and optional ignoreProxyCertificate. -/
inductive AnonymizeOptions where
  | str (proxyUrl : String)
  | opts (url : String) (port : Int) (ignoreProxyCertificate : Option Bool)
deriving DecidableEq, Repr

/-- The body of anonymizeProxy after the options have been destructured
into proxyUrl, port and ignoreProxyCertificate: parse the URL, check the
scheme, return the URL directly when no anonymization is needed,
otherwise construct the forwarding server, await its listen, and on
success register it under `http://127.0.0.1:<assigned port>`.
`parseURL` models the platform URL parser and `listen` the
collaborator's asynchronous start. -/
def anonymizeProxyParsed (parseURL : String → Option ParsedUrl) (socks : List String)
    (listen : ServerConfig → ListenResult) (registry : Registry)
    (proxyUrl : String) (port : Int) (ignoreProxyCertificate : Bool) (cb : Bool) :
    Outcome String :=
  match parseURL proxyUrl with
  | none => ⟨.error (.invalidUrl (invalidUrlMessage proxyUrl)), registry, [], []⟩
  | some parsed =>
    if parsed.protocol ∉ ("http:" :: "https:" :: socks) then
      ⟨.error (.unsupportedScheme (schemeErrorMessage socks parsed)), registry, [], []⟩
    else if parsed.username = "" ∧ parsed.password = ""
        ∧ (ignoreProxyCertificate = false ∨ parsed.protocol ≠ "https:") then
      ⟨(nodeify (Except.ok proxyUrl) cb).1, registry, [], (nodeify (Except.ok proxyUrl) cb).2⟩
    else
      let config : ServerConfig :=
        ⟨port, "127.0.0.1", false, proxyUrl, ignoreProxyCertificate⟩
      match listen config with
      | .fail e =>
          ⟨(nodeify (Except.error (JsError.serverError e)) cb).1, registry, [config],
            (nodeify (Except.error (JsError.serverError e)) cb).2⟩
      | .ok p =>
          let url := "http://127.0.0.1:" ++ toString p
          ⟨(nodeify (Except.ok url) cb).1,
            Registry.insert registry url ⟨config, p, []⟩, [config],
            (nodeify (Except.ok url) cb).2⟩

/-- anonymizeProxy: destructure the options (string input means port 0
and no certificate ignoring; structured input has its port checked
against the 0-65535 range before anything else), then continue with the
parsed-options body. -/
def anonymizeProxy (parseURL : String → Option ParsedUrl) (socks : List String)
    (listen : ServerConfig → ListenResult) (registry : Registry)
    (options : AnonymizeOptions) (cb : Bool) : Outcome String :=
  match options with
  | .str proxyUrl =>
      anonymizeProxyParsed parseURL socks listen registry proxyUrl 0 false cb
  | .opts url port ig =>
      if port < 0 ∨ port > 65535 then
        ⟨.error (.invalidPort invalidPortMessage), registry, [], []⟩
      else
        anonymizeProxyParsed parseURL socks listen registry url port (ig.getD false) cb

/-- The argument of closeAnonymizedProxy as a dynamically-typed value:
the module explicitly checks it is a string. -/
inductive JsArg where
  | str (s : String)
  | nonString
deriving DecidableEq, Repr

/-- closeAnonymizedProxy: reject a non-string argument, resolve false
when the URL is not registered, otherwise delete the registry entry
first and then await the server's close (its outcome given by the
`serverClose` oracle: `none` is a successful teardown, `some e` a
propagated shutdown failure), resolving true on success. -/
def closeAnonymizedProxy (serverClose : Server → Bool → Option String)
    (registry : Registry) (arg : JsArg) (closeConnections : Bool) (cb : Bool) :
    Outcome Bool :=
  match arg with
  | .nonString => ⟨.error (.invalidArgument closeArgMessage), registry, [], []⟩
  | .str anonymizedProxyUrl =>
    match Registry.find? registry anonymizedProxyUrl with
    | none =>
        ⟨(nodeify (Except.ok false) cb).1, registry, [], (nodeify (Except.ok false) cb).2⟩
    | some server =>
      let registry2 := Registry.erase registry anonymizedProxyUrl
      match serverClose server closeConnections with
      | some e =>
          ⟨(nodeify (Except.error (JsError.serverError e)) cb).1, registry2, [],
            (nodeify (Except.error (JsError.serverError e)) cb).2⟩
      | none =>
          ⟨(nodeify (Except.ok true) cb).1, registry2, [], (nodeify (Except.ok true) cb).2⟩

/-- listenConnectAnonymizedProxy: look the URL up in the registry;
return false when absent, otherwise attach the callback to the server's
tunnelConnectResponded event stream and return true.  Attaching mutates
the server object the registry entry owns, rendered here as updating the
entry with the observer appended. -/
def listenConnectAnonymizedProxy (registry : Registry)
    (anonymizedProxyUrl : String) (observer : Nat) : Bool × Registry :=
  match Registry.find? registry anonymizedProxyUrl with
  | none => (false, registry)
  | some server =>
      (true, Registry.insert registry anonymizedProxyUrl
        ⟨server.config, server.port, server.listeners ++ [observer]⟩)

/-- Hex digit value of a byte read as an ASCII character, `none` when it
is not a hex digit. -/
def hexDigitVal (b : UInt8) : Option Nat :=
  let n := b.toNat
  if 48 ≤ n ∧ n ≤ 57 then some (n - 48)
  else if 97 ≤ n ∧ n ≤ 102 then some (n - 97 + 10)
  else if 65 ≤ n ∧ n ≤ 70 then some (n - 65 + 10)
  else none

/-- Percent-decoding at the byte level (fuel-indexed so the recursion is
structural; one unit of fuel per consumed leading byte suffices): every
`%` must be followed by two hex digits and decodes to the corresponding
byte; a malformed escape sequence fails the whole decode. -/
def percentDecodeAux : Nat → List UInt8 → Option (List UInt8)
  | _, [] => some []
  | 0, _ :: _ => none
  | fuel + 1, b :: rest =>
    if b = 37 then
      match rest with
      | h1 :: h2 :: rest2 =>
        match hexDigitVal h1, hexDigitVal h2 with
        | some d1, some d2 =>
            (percentDecodeAux fuel rest2).map (fun l => UInt8.ofNat (16 * d1 + d2) :: l)
        | _, _ => none
      | _ => none
    else (percentDecodeAux fuel rest).map (fun l => b :: l)

/-- Percent-decoding of a byte list. -/
def percentDecodeBytes (l : List UInt8) : Option (List UInt8) :=
  percentDecodeAux l.length l

/-- The UTF-8 bytes of a string. -/
def stringUTF8 (s : String) : List UInt8 :=
  s.data.flatMap String.utf8EncodeChar

/-- Decode one UTF-8 character from the front of a byte list, returning
it with the remaining bytes; `none` on any invalid, overlong or
surrogate-encoding sequence. -/
def utf8DecodeOne : List UInt8 → Option (Char × List UInt8)
  | [] => none
  | c :: rest =>
    if c &&& 0x80 = 0 then
      some (Char.ofNat c.toNat, rest)
    else if c &&& 0xe0 = 0xc0 then
      match rest with
      | c1 :: rest1 =>
        if c1 &&& 0xc0 = 0x80 then
          let r : Nat := ((c.toNat &&& 0x1f) <<< 6) ||| (c1.toNat &&& 0x3f)
          if 0x80 ≤ r ∧ r < 0xd800 then some (Char.ofNat r, rest1) else none
        else none
      | _ => none
    else if c &&& 0xf0 = 0xe0 then
      match rest with
      | c1 :: c2 :: rest2 =>
        if c1 &&& 0xc0 = 0x80 ∧ c2 &&& 0xc0 = 0x80 then
          let r : Nat := ((c.toNat &&& 0x0f) <<< 12) ||| ((c1.toNat &&& 0x3f) <<< 6)
            ||| (c2.toNat &&& 0x3f)
          if 0x800 ≤ r ∧ (r < 0xd800 ∨ (0xdfff < r ∧ r < 0x110000)) then
            some (Char.ofNat r, rest2)
          else none
        else none
      | _ => none
    else if c &&& 0xf8 = 0xf0 then
      match rest with
      | c1 :: c2 :: c3 :: rest3 =>
        if c1 &&& 0xc0 = 0x80 ∧ c2 &&& 0xc0 = 0x80 ∧ c3 &&& 0xc0 = 0x80 then
          let r : Nat := ((c.toNat &&& 0x07) <<< 18) ||| ((c1.toNat &&& 0x3f) <<< 12)
            ||| ((c2.toNat &&& 0x3f) <<< 6) ||| (c3.toNat &&& 0x3f)
          if 0x10000 ≤ r ∧ r < 0x110000 then some (Char.ofNat r, rest3) else none
        else none
      | _ => none
    else none

/-- UTF-8 decoding of a byte list into its characters (fuel-indexed so
the recursion is structural; one unit of fuel per decoded character
suffices), failing on any invalid UTF-8. -/
def utf8DecodeAux : Nat → List UInt8 → Option (List Char)
  | _, [] => some []
  | 0, _ :: _ => none
  | fuel + 1, bs =>
    match utf8DecodeOne bs with
    | none => none
    | some (c, rest) => (utf8DecodeAux fuel rest).map (fun l => c :: l)

/-- The string whose UTF-8 encoding is the given bytes, `none` when the
bytes are not valid UTF-8. -/
def fromUTF8Bytes (bs : List UInt8) : Option String :=
  (utf8DecodeAux bs.length bs).map String.mk

/-- Modelled from the spec: the platform percent-decoder the wrapper
guards (JavaScript decodeURIComponent): percent-decode the UTF-8 bytes
of the input and require the decoded bytes to be valid UTF-8; any
failure (a URIError in the platform) is `none`. -/
def decodeURIComponent (s : String) : Option String :=
  (percentDecodeBytes (stringUTF8 s)).bind fromUTF8Bytes

/-- decodeURIComponentSafe: return the decoded component, and on any
decoding failure return the original input unchanged (the try/catch
wrapper). -/
def decodeURIComponentSafe (encodedURIComponent : String) : String :=
  match decodeURIComponent encodedURIComponent with
  | some d => d
  | none => encodedURIComponent

/-- Is the error one of the synchronous validation throws (as opposed to
a propagated collaborator failure)? -/
def JsError.isValidation : JsError → Bool
  | .serverError _ => false
  | _ => true

/-- Did the call end in a synchronous validation throw? -/
def Outcome.syncThrew {α : Type} (o : Outcome α) : Bool :=
  match o.result with
  | .error e => e.isValidation
  | .ok _ => false

/-- Looking a key up after erasing it finds nothing. -/
theorem Registry.find_erase (r : Registry) (k : String) :
    Registry.find? (Registry.erase r k) k = none := by
  induction r with
  | nil => rfl
  | cons hd tl ih =>
    obtain ⟨k2, v⟩ := hd
    by_cases h : k2 = k
    · simp [Registry.erase, h, ih]
    · simp [Registry.erase, Registry.find?, h, ih]

/-- Looking a key up right after assigning it finds the assigned value. -/
theorem Registry.find_insert (r : Registry) (k : String) (v : Server) :
    Registry.find? (Registry.insert r k v) k = some v := by
  simp [Registry.insert, Registry.find?]

/-- Claim C7: the URI decoder is total (a function of the embedding, so
it never raises); it returns the percent-decoded form of the input, and
when decoding fails for any reason it returns the original input string
unchanged. -/
theorem C7_decoder_total (s : String) :
    (∀ d, decodeURIComponent s = some d → decodeURIComponentSafe s = d)
    ∧ (decodeURIComponent s = none → decodeURIComponentSafe s = s) := by
  refine ⟨fun d h => ?_, fun h => ?_⟩
  · simp [decodeURIComponentSafe, h]
  · simp [decodeURIComponentSafe, h]

/-- Witness for C7 at concrete inputs: a decodable component is decoded,
a malformed one is returned unchanged. -/
theorem C7_decoder_total_witness :
    decodeURIComponentSafe "a%20b" = "a b" ∧ decodeURIComponentSafe "%zz" = "%zz" :=
  ⟨(C7_decoder_total "a%20b").1 "a b" (by decide),
   (C7_decoder_total "%zz").2 (by decide)⟩

/-- Claim C9: listenConnectAnonymizedProxy returns false and attaches
nothing when the URL is not registered; when it is registered it
attaches the observer to that server's tunnelConnectResponded event
stream and returns true. -/
theorem C9_tunnel_event_bridge (registry : Registry) (url : String) (observer : Nat) :
    (Registry.find? registry url = none →
      listenConnectAnonymizedProxy registry url observer = (false, registry))
    ∧ (∀ s, Registry.find? registry url = some s →
      (listenConnectAnonymizedProxy registry url observer).1 = true
      ∧ Registry.find? (listenConnectAnonymizedProxy registry url observer).2 url
          = some ⟨s.config, s.port, s.listeners ++ [observer]⟩) := by
  refine ⟨fun h => ?_, fun s h => ?_⟩
  · simp [listenConnectAnonymizedProxy, h]
  · simp [listenConnectAnonymizedProxy, h, Registry.find_insert]

/-- Witness for C9: an empty registry yields false; a registered URL
yields true with the observer attached. -/
theorem C9_tunnel_event_bridge_witness :
    listenConnectAnonymizedProxy [] "http://127.0.0.1:4567" 7 = (false, [])
    ∧ (listenConnectAnonymizedProxy
        [("http://127.0.0.1:4567", ⟨⟨0, "127.0.0.1", false, "http://u:p@h", false⟩, 4567, []⟩)]
        "http://127.0.0.1:4567" 7).1 = true :=
  ⟨(C9_tunnel_event_bridge [] "http://127.0.0.1:4567" 7).1 (by decide),
   ((C9_tunnel_event_bridge
      [("http://127.0.0.1:4567", ⟨⟨0, "127.0.0.1", false, "http://u:p@h", false⟩, 4567, []⟩)]
      "http://127.0.0.1:4567" 7).2
      ⟨⟨0, "127.0.0.1", false, "http://u:p@h", false⟩, 4567, []⟩ (by decide)).1⟩

/-- Claim C3: when close finds the URL in the registry, the entry is
removed before the server's shutdown is awaited: the registry the call
leaves behind is the erased one whatever the shutdown outcome, the
erased registry no longer contains the key, and a close issued against
the post-removal registry resolves false even though the server has not
finished tearing down. -/
theorem C3_remove_before_await (serverClose : Server → Bool → Option String)
    (registry : Registry) (url : String) (s : Server) (force cb force2 cb2 : Bool)
    (h : Registry.find? registry url = some s) :
    Registry.find? (Registry.erase registry url) url = none
    ∧ (closeAnonymizedProxy serverClose registry (.str url) force cb).registry
        = Registry.erase registry url
    ∧ (closeAnonymizedProxy serverClose (Registry.erase registry url) (.str url) force2 cb2).result
        = .ok false := by
  refine ⟨Registry.find_erase registry url, ?_, ?_⟩
  · simp only [closeAnonymizedProxy, h]
    cases serverClose s force <;> simp
  · simp only [closeAnonymizedProxy, Registry.find_erase]
    simp [nodeify]

/-- Witness for C3 at a concrete one-entry registry. -/
theorem C3_remove_before_await_witness :
    Registry.find?
      (Registry.erase [("http://127.0.0.1:4567",
        ⟨⟨0, "127.0.0.1", false, "http://u:p@h", false⟩, 4567, []⟩)] "http://127.0.0.1:4567")
      "http://127.0.0.1:4567" = none :=
  (C3_remove_before_await (fun _ _ => none)
    [("http://127.0.0.1:4567", ⟨⟨0, "127.0.0.1", false, "http://u:p@h", false⟩, 4567, []⟩)]
    "http://127.0.0.1:4567"
    ⟨⟨0, "127.0.0.1", false, "http://u:p@h", false⟩, 4567, []⟩
    true false true false (by decide)).1

/-- A parse oracle for witnesses: an http URL carrying a username and a
password. -/
def parseCred : String → Option ParsedUrl := fun u => some ⟨"http:", "user", "pass", u⟩

/-- A parse oracle for witnesses: an http URL carrying no credentials. -/
def parseNoCred : String → Option ParsedUrl := fun u => some ⟨"http:", "", "", u⟩

/-- A listen oracle for witnesses: every server binds successfully and
is assigned port 4567. -/
def listenOk4567 : ServerConfig → ListenResult := fun _ => .ok 4567

/-- A listen oracle for witnesses: every bind fails. -/
def listenFailAddrInUse : ServerConfig → ListenResult := fun _ => .fail "EADDRINUSE"

/-- A shutdown oracle for witnesses: every teardown succeeds. -/
def closeOk : Server → Bool → Option String := fun _ _ => none

/-- Claim C1: for every descriptor (valid port, parsable URL, accepted
scheme), anonymization — constructing a local forwarding server — takes
place if and only if the descriptor carries credentials or
ignoreProxyCertificate is set with an https scheme; in every other case
the call resolves with exactly the input proxy URL, constructs no
server and leaves the registry untouched. -/
theorem C1_anonymization_iff (parseURL : String → Option ParsedUrl) (socks : List String)
    (listen : ServerConfig → ListenResult) (registry : Registry)
    (url : String) (port : Int) (ig cb : Bool) (parsed : ParsedUrl)
    (hport : ¬(port < 0 ∨ port > 65535))
    (hparse : parseURL url = some parsed)
    (hscheme : parsed.protocol ∈ ("http:" :: "https:" :: socks)) :
    (¬(parsed.username ≠ "" ∨ parsed.password ≠ "" ∨ (ig = true ∧ parsed.protocol = "https:")) →
      (anonymizeProxy parseURL socks listen registry (.opts url port (some ig)) cb).result
        = Except.ok url
      ∧ (anonymizeProxy parseURL socks listen registry (.opts url port (some ig)) cb).registry
        = registry
      ∧ (anonymizeProxy parseURL socks listen registry (.opts url port (some ig)) cb).created
        = [])
    ∧ ((parsed.username ≠ "" ∨ parsed.password ≠ "" ∨ (ig = true ∧ parsed.protocol = "https:")) →
      (anonymizeProxy parseURL socks listen registry (.opts url port (some ig)) cb).created
        = [⟨port, "127.0.0.1", false, url, ig⟩]) := by
  simp only [anonymizeProxy, if_neg hport, anonymizeProxyParsed, hparse, Option.getD]
  rw [if_neg (by simp [hscheme])]
  constructor
  · intro hno
    push_neg at hno
    obtain ⟨hu, hp, hig⟩ := hno
    have hcond : parsed.username = "" ∧ parsed.password = ""
        ∧ (ig = false ∨ parsed.protocol ≠ "https:") := by
      refine ⟨hu, hp, ?_⟩
      cases ig with
      | false => exact Or.inl rfl
      | true => exact Or.inr (hig rfl)
    rw [if_pos hcond]
    simp [nodeify]
  · intro hyes
    have hcond : ¬(parsed.username = "" ∧ parsed.password = ""
        ∧ (ig = false ∨ parsed.protocol ≠ "https:")) := by
      rcases hyes with hu | hp | ⟨higt, hps⟩
      · exact fun hc => hu hc.1
      · exact fun hc => hp hc.2.1
      · intro hc
        rcases hc.2.2 with hf | hne
        · rw [higt] at hf; cases hf
        · exact hne hps
    rw [if_neg hcond]
    cases listen ⟨port, "127.0.0.1", false, url, ig⟩ <;> simp

/-- Witness for C1: a credentialed http descriptor on a valid port leads
to a server construction; the same descriptor without credentials is
passed through untouched. -/
theorem C1_anonymization_iff_witness :
    (anonymizeProxy parseNoCred [] listenOk4567 [] (.opts "http://h" 0 (some false)) false).result
      = Except.ok "http://h"
    ∧ (anonymizeProxy parseCred [] listenOk4567 [] (.opts "http://u:p@h" 0 (some false)) false).created
      = [⟨0, "127.0.0.1", false, "http://u:p@h", false⟩] :=
  ⟨((C1_anonymization_iff parseNoCred [] listenOk4567 [] "http://h" 0 false false
      ⟨"http:", "", "", "http://h"⟩ (by decide) rfl (by decide)).1 (by decide)).1,
   (C1_anonymization_iff parseCred [] listenOk4567 [] "http://u:p@h" 0 false false
      ⟨"http:", "user", "pass", "http://u:p@h"⟩ (by decide) rfl (by decide)).2
      (Or.inl (by decide))⟩

/-- Claim C2: when anonymization is required, the registry entry is
created only after the forwarding server has successfully started
listening, under the key `http://127.0.0.1:` followed by the assigned
port; when the start fails, the call rejects with the propagated
failure and the registry is left untouched. -/
theorem C2_register_only_after_listen (parseURL : String → Option ParsedUrl)
    (socks : List String) (listen : ServerConfig → ListenResult) (registry : Registry)
    (url : String) (port : Int) (ig cb : Bool) (parsed : ParsedUrl)
    (hport : ¬(port < 0 ∨ port > 65535))
    (hparse : parseURL url = some parsed)
    (hscheme : parsed.protocol ∈ ("http:" :: "https:" :: socks))
    (hneed : ¬(parsed.username = "" ∧ parsed.password = ""
      ∧ (ig = false ∨ parsed.protocol ≠ "https:"))) :
    (∀ p, listen ⟨port, "127.0.0.1", false, url, ig⟩ = .ok p →
      (anonymizeProxy parseURL socks listen registry (.opts url port (some ig)) cb).registry
        = Registry.insert registry ("http://127.0.0.1:" ++ toString p)
            ⟨⟨port, "127.0.0.1", false, url, ig⟩, p, []⟩
      ∧ (anonymizeProxy parseURL socks listen registry (.opts url port (some ig)) cb).result
        = Except.ok ("http://127.0.0.1:" ++ toString p))
    ∧ (∀ e, listen ⟨port, "127.0.0.1", false, url, ig⟩ = .fail e →
      (anonymizeProxy parseURL socks listen registry (.opts url port (some ig)) cb).result
        = Except.error (.serverError e)
      ∧ (anonymizeProxy parseURL socks listen registry (.opts url port (some ig)) cb).registry
        = registry) := by
  simp only [anonymizeProxy, if_neg hport, anonymizeProxyParsed, hparse, Option.getD]
  rw [if_neg (by simp [hscheme]), if_neg hneed]
  constructor
  · intro p hl
    rw [hl]
    simp [nodeify]
  · intro e hl
    rw [hl]
    simp [nodeify]

/-- Witness for C2: with a credentialed descriptor, a successful bind on
port 4567 registers exactly the key http://127.0.0.1:4567, and a failed
bind leaves the registry empty while propagating the failure. -/
theorem C2_register_only_after_listen_witness :
    (anonymizeProxy parseCred [] listenOk4567 [] (.opts "http://u:p@h" 0 (some false)) false).registry
      = Registry.insert [] "http://127.0.0.1:4567"
          ⟨⟨0, "127.0.0.1", false, "http://u:p@h", false⟩, 4567, []⟩
    ∧ (anonymizeProxy parseCred [] listenFailAddrInUse [] (.opts "http://u:p@h" 0 (some false)) false).result
      = Except.error (.serverError "EADDRINUSE") :=
  ⟨((C2_register_only_after_listen parseCred [] listenOk4567 [] "http://u:p@h" 0 false false
      ⟨"http:", "user", "pass", "http://u:p@h"⟩ (by decide) rfl (by decide) (by decide)).1
      4567 rfl).1,
   ((C2_register_only_after_listen parseCred [] listenFailAddrInUse [] "http://u:p@h" 0 false false
      ⟨"http:", "user", "pass", "http://u:p@h"⟩ (by decide) rfl (by decide) (by decide)).2
      "EADDRINUSE" rfl).1⟩

/-- Once the port range check has been passed, no later step of
anonymizeProxy can produce the invalid-port error. -/
theorem anonymizeProxyParsed_not_invalidPort (parseURL : String → Option ParsedUrl)
    (socks : List String) (listen : ServerConfig → ListenResult) (registry : Registry)
    (proxyUrl : String) (port : Int) (ig cb : Bool) (m : String) :
    (anonymizeProxyParsed parseURL socks listen registry proxyUrl port ig cb).result
      ≠ Except.error (.invalidPort m) := by
  unfold anonymizeProxyParsed
  split
  · simp
  · split
    · simp
    · split
      · simp [nodeify]
      · dsimp only
        split <;> simp [nodeify]

/-- Claim C5: for structured options, a requested local port outside
0-65535 fails with the invalid-port error before any server is created
or registered (and before any callback fires), while an in-range port
(such as 0 or 65535) can never produce the invalid-port error. -/
theorem C5_port_validation (parseURL : String → Option ParsedUrl) (socks : List String)
    (listen : ServerConfig → ListenResult) (registry : Registry)
    (url : String) (port : Int) (ig : Option Bool) (cb : Bool) :
    ((port < 0 ∨ port > 65535) →
      (anonymizeProxy parseURL socks listen registry (.opts url port ig) cb).result
        = Except.error (.invalidPort invalidPortMessage)
      ∧ (anonymizeProxy parseURL socks listen registry (.opts url port ig) cb).created = []
      ∧ (anonymizeProxy parseURL socks listen registry (.opts url port ig) cb).registry
        = registry)
    ∧ (¬(port < 0 ∨ port > 65535) →
      ∀ m, (anonymizeProxy parseURL socks listen registry (.opts url port ig) cb).result
        ≠ Except.error (.invalidPort m)) := by
  constructor
  · intro h
    simp [anonymizeProxy, if_pos h]
  · intro h m
    simp only [anonymizeProxy, if_neg h]
    exact anonymizeProxyParsed_not_invalidPort parseURL socks listen registry url port
      (ig.getD false) cb m

/-- Witness for C5: port -1 and port 65536 are rejected with the
invalid-port error; ports 0 and 65535 never produce it. -/
theorem C5_port_validation_witness :
    (anonymizeProxy parseCred [] listenOk4567 [] (.opts "http://u:p@h" (-1) none) false).result
      = Except.error (.invalidPort invalidPortMessage)
    ∧ (anonymizeProxy parseCred [] listenOk4567 [] (.opts "http://u:p@h" 65536 none) false).result
      = Except.error (.invalidPort invalidPortMessage)
    ∧ (anonymizeProxy parseCred [] listenOk4567 [] (.opts "http://u:p@h" 0 none) false).result
      ≠ Except.error (.invalidPort invalidPortMessage)
    ∧ (anonymizeProxy parseCred [] listenOk4567 [] (.opts "http://u:p@h" 65535 none) false).result
      ≠ Except.error (.invalidPort invalidPortMessage) :=
  ⟨((C5_port_validation parseCred [] listenOk4567 [] "http://u:p@h" (-1) none false).1
      (by decide)).1,
   ((C5_port_validation parseCred [] listenOk4567 [] "http://u:p@h" 65536 none false).1
      (by decide)).1,
   (C5_port_validation parseCred [] listenOk4567 [] "http://u:p@h" 0 none false).2
      (by decide) invalidPortMessage,
   (C5_port_validation parseCred [] listenOk4567 [] "http://u:p@h" 65535 none false).2
      (by decide) invalidPortMessage⟩

/-- Claim C6: a parsed scheme outside http, https and the
collaborator-declared SOCKS schemes fails with the unsupported-scheme
error whose message enumerates the full accepted scheme list (shown
verbatim for the declared SOCKS schemes); a scheme inside the set never
produces the unsupported-scheme error. -/
theorem C6_scheme_validation (parseURL : String → Option ParsedUrl) (socks : List String)
    (listen : ServerConfig → ListenResult) (registry : Registry)
    (url : String) (cb : Bool) (parsed : ParsedUrl)
    (hparse : parseURL url = some parsed) :
    (parsed.protocol ∉ ("http:" :: "https:" :: socks) →
      (anonymizeProxy parseURL socks listen registry (.str url) cb).result
        = Except.error (.unsupportedScheme (schemeErrorMessage socks parsed))
      ∧ (anonymizeProxy parseURL socks listen registry (.str url) cb).registry = registry
      ∧ (anonymizeProxy parseURL socks listen registry (.str url) cb).created = [])
    ∧ (parsed.protocol ∈ ("http:" :: "https:" :: socks) →
      ∀ m, (anonymizeProxy parseURL socks listen registry (.str url) cb).result
        ≠ Except.error (.unsupportedScheme m))
    ∧ schemeErrorMessage SOCKS_PROTOCOLS parsed
      = "Invalid \"proxyUrl\" provided: URL must have one of the following protocols: \"http\", \"https\", \"socks4\", \"socks4a\", \"socks5\", \"socks5h\" (was \""
        ++ parsed.href ++ "\")" := by
  refine ⟨fun hs => ?_, fun hs m => ?_, ?_⟩
  · simp only [anonymizeProxy, anonymizeProxyParsed, hparse]
    rw [if_pos hs]
    simp
  · simp only [anonymizeProxy, anonymizeProxyParsed, hparse]
    rw [if_neg (by simp [hs])]
    split
    · simp [nodeify]
    · split <;> simp [nodeify]
  · unfold schemeErrorMessage SOCKS_PROTOCOLS
    congr 1

/-- Witness for C6: an ftp URL is rejected with the enumerating message;
an http URL with the same shape never produces the unsupported-scheme
error. -/
theorem C6_scheme_validation_witness :
    (anonymizeProxy (fun u => some ⟨"ftp:", "", "", u⟩) SOCKS_PROTOCOLS listenOk4567 []
        (.str "ftp://h:21") false).result
      = Except.error (.unsupportedScheme
          (schemeErrorMessage SOCKS_PROTOCOLS ⟨"ftp:", "", "", "ftp://h:21"⟩))
    ∧ (anonymizeProxy parseNoCred SOCKS_PROTOCOLS listenOk4567 []
        (.str "http://h") false).result
      ≠ Except.error (.unsupportedScheme
          (schemeErrorMessage SOCKS_PROTOCOLS ⟨"http:", "", "", "http://h"⟩)) :=
  ⟨((C6_scheme_validation (fun u => some ⟨"ftp:", "", "", u⟩) SOCKS_PROTOCOLS listenOk4567 []
      "ftp://h:21" false ⟨"ftp:", "", "", "ftp://h:21"⟩ rfl).1 (by decide)).1,
   (C6_scheme_validation parseNoCred SOCKS_PROTOCOLS listenOk4567 []
      "http://h" false ⟨"http:", "", "", "http://h"⟩ rfl).2.1 (by decide)
      (schemeErrorMessage SOCKS_PROTOCOLS ⟨"http:", "", "", "http://h"⟩)⟩

/-- Claim C10: partial credentials suffice to trigger anonymization: a
parsed proxy URL carrying only a non-empty username, or only a
non-empty password, already causes the local forwarding server to be
constructed. -/
theorem C10_partial_credentials (parseURL : String → Option ParsedUrl) (socks : List String)
    (listen : ServerConfig → ListenResult) (registry : Registry)
    (url : String) (port : Int) (ig cb : Bool) (parsed : ParsedUrl)
    (hport : ¬(port < 0 ∨ port > 65535))
    (hparse : parseURL url = some parsed)
    (hscheme : parsed.protocol ∈ ("http:" :: "https:" :: socks)) :
    (parsed.username ≠ "" ∧ parsed.password = "" →
      (anonymizeProxy parseURL socks listen registry (.opts url port (some ig)) cb).created
        = [⟨port, "127.0.0.1", false, url, ig⟩])
    ∧ (parsed.username = "" ∧ parsed.password ≠ "" →
      (anonymizeProxy parseURL socks listen registry (.opts url port (some ig)) cb).created
        = [⟨port, "127.0.0.1", false, url, ig⟩]) := by
  simp only [anonymizeProxy, if_neg hport, anonymizeProxyParsed, hparse, Option.getD]
  rw [if_neg (by simp [hscheme])]
  constructor
  · intro hu
    rw [if_neg (fun hc => hu.1 hc.1)]
    cases listen ⟨port, "127.0.0.1", false, url, ig⟩ <;> simp
  · intro hp
    rw [if_neg (fun hc => hp.2 hc.2.1)]
    cases listen ⟨port, "127.0.0.1", false, url, ig⟩ <;> simp

/-- Witness for C10: a URL with only a username, and one with only a
password, each lead to a server construction. -/
theorem C10_partial_credentials_witness :
    (anonymizeProxy (fun u => some ⟨"http:", "user", "", u⟩) [] listenOk4567 []
        (.opts "http://user@h" 0 (some false)) false).created
      = [⟨0, "127.0.0.1", false, "http://user@h", false⟩]
    ∧ (anonymizeProxy (fun u => some ⟨"http:", "", "pass", u⟩) [] listenOk4567 []
        (.opts "http://:pass@h" 0 (some false)) false).created
      = [⟨0, "127.0.0.1", false, "http://:pass@h", false⟩] :=
  ⟨(C10_partial_credentials (fun u => some ⟨"http:", "user", "", u⟩) [] listenOk4567 []
      "http://user@h" 0 false false ⟨"http:", "user", "", "http://user@h"⟩
      (by decide) rfl (by decide)).1 (by decide),
   (C10_partial_credentials (fun u => some ⟨"http:", "", "pass", u⟩) [] listenOk4567 []
      "http://:pass@h" 0 false false ⟨"http:", "", "pass", "http://:pass@h"⟩
      (by decide) rfl (by decide)).2 (by decide)⟩

/-- Counterexample to claim C4 as stated: opening a credential-free http
proxy URL is a successful open, resolving the input URL itself, yet the
first close of that returned URL resolves false rather than true,
because a pass-through open registers nothing. -/
theorem C4_close_idempotent_counterexample :
    (anonymizeProxy parseNoCred [] listenOk4567 [] (.str "http://example.com") false).result
      = Except.ok "http://example.com"
    ∧ (closeAnonymizedProxy closeOk
        (anonymizeProxy parseNoCred [] listenOk4567 [] (.str "http://example.com") false).registry
        (.str "http://example.com") false false).result = Except.ok false := by
  decide

/-- Claim C4 amended: close on a URL absent from the registry (never
opened, or already closed) resolves false and changes nothing; after a
successful open that required anonymization — one that created and
registered a forwarding server — the first close of the returned URL
resolves true and the second close of the same URL resolves false.  A
pass-through open registers nothing, so a close of its returned URL
resolves false. -/
theorem C4_close_idempotent (parseURL : String → Option ParsedUrl) (socks : List String)
    (listen : ServerConfig → ListenResult) (serverClose : Server → Bool → Option String)
    (registry : Registry) (u0 url : String) (port : Int)
    (ig cb cb2 cb3 force force2 : Bool) (parsed : ParsedUrl) (p : Nat)
    (hclose : ∀ s b, serverClose s b = none) :
    (Registry.find? registry u0 = none →
      (closeAnonymizedProxy serverClose registry (.str u0) force cb2).result = Except.ok false
      ∧ (closeAnonymizedProxy serverClose registry (.str u0) force cb2).registry = registry)
    ∧ (¬(port < 0 ∨ port > 65535) →
       parseURL url = some parsed →
       parsed.protocol ∈ ("http:" :: "https:" :: socks) →
       ¬(parsed.username = "" ∧ parsed.password = ""
         ∧ (ig = false ∨ parsed.protocol ≠ "https:")) →
       listen ⟨port, "127.0.0.1", false, url, ig⟩ = .ok p →
      (closeAnonymizedProxy serverClose
          (anonymizeProxy parseURL socks listen registry (.opts url port (some ig)) cb).registry
          (.str ("http://127.0.0.1:" ++ toString p)) force cb2).result = Except.ok true
      ∧ (closeAnonymizedProxy serverClose
          (closeAnonymizedProxy serverClose
            (anonymizeProxy parseURL socks listen registry (.opts url port (some ig)) cb).registry
            (.str ("http://127.0.0.1:" ++ toString p)) force cb2).registry
          (.str ("http://127.0.0.1:" ++ toString p)) force2 cb3).result
        = Except.ok false) := by
  constructor
  · intro h
    simp only [closeAnonymizedProxy, h]
    simp [nodeify]
  · intro hport hparse hscheme hneed hlisten
    simp only [anonymizeProxy, if_neg hport, anonymizeProxyParsed, hparse, Option.getD]
    rw [if_neg (by simp [hscheme]), if_neg hneed]
    rw [hlisten]
    simp only [closeAnonymizedProxy, Registry.find_insert, hclose]
    simp only [Registry.insert, Registry.erase, if_pos rfl, if_true]
    rw [Registry.find_erase]
    simp [nodeify]

/-- Witness for the amended C4: a close against the empty registry
resolves false; after a credentialed open, the first close of the
returned URL resolves true and the second resolves false. -/
theorem C4_close_idempotent_witness :
    (closeAnonymizedProxy closeOk [] (.str "http://127.0.0.1:4567") false false).result
      = Except.ok false
    ∧ (closeAnonymizedProxy closeOk
        (anonymizeProxy parseCred [] listenOk4567 [] (.opts "http://u:p@h" 0 (some false)) false).registry
        (.str "http://127.0.0.1:4567") false false).result = Except.ok true
    ∧ (closeAnonymizedProxy closeOk
        (closeAnonymizedProxy closeOk
          (anonymizeProxy parseCred [] listenOk4567 [] (.opts "http://u:p@h" 0 (some false)) false).registry
          (.str "http://127.0.0.1:4567") false false).registry
        (.str "http://127.0.0.1:4567") false false).result = Except.ok false :=
  have h := C4_close_idempotent parseCred [] listenOk4567 closeOk []
    "http://127.0.0.1:4567" "http://u:p@h" 0 false false false false false false
    ⟨"http:", "user", "pass", "http://u:p@h"⟩ 4567 (fun _ _ => rfl)
  have h2 := h.2 (by decide) rfl (by decide) (by decide) rfl
  ⟨(h.1 (by decide)).1, h2.1, h2.2⟩

/-- The legacy-callback invocations of the parsed-options body of
anonymizeProxy: exactly one invocation carrying the settled result
whenever the callback is supplied, except on the synchronous validation
throws, which never reach the callback adapter. -/
theorem anonymizeProxyParsed_calls (parseURL : String → Option ParsedUrl)
    (socks : List String) (listen : ServerConfig → ListenResult) (registry : Registry)
    (proxyUrl : String) (port : Int) (ig cb : Bool) :
    (anonymizeProxyParsed parseURL socks listen registry proxyUrl port ig cb).calls
      = (if cb = true
          ∧ (anonymizeProxyParsed parseURL socks listen registry proxyUrl port ig cb).syncThrew
            = false
         then [(anonymizeProxyParsed parseURL socks listen registry proxyUrl port ig cb).result]
         else []) := by
  unfold anonymizeProxyParsed
  split
  · simp [Outcome.syncThrew, JsError.isValidation]
  · split
    · simp [Outcome.syncThrew, JsError.isValidation]
    · split
      · cases cb <;> simp [nodeify, Outcome.syncThrew, JsError.isValidation]
      · dsimp only
        split <;> cases cb <;> simp [nodeify, Outcome.syncThrew, JsError.isValidation]

/-- Counterexample to claim C8 as stated: with the legacy callback
supplied, a validation failure (an out-of-range port) rejects the call
but the callback is never invoked — the synchronous throw happens
before the callback adapter is reached. -/
theorem C8_callback_counterexample :
    (anonymizeProxy parseCred [] listenOk4567 [] (.opts "http://u:p@h" (-1) none) true).result
      = Except.error (.invalidPort invalidPortMessage)
    ∧ (anonymizeProxy parseCred [] listenOk4567 [] (.opts "http://u:p@h" (-1) none) true).calls
      = [] := by
  decide

/-- Claim C8 amended: for both open and close, the supplied legacy
callback is invoked exactly once with the settled outcome — success,
propagated server failure, or the pass-through result — and the same
outcome is still returned to the caller; the synchronous validation
throws (invalid port, unparsable URL, unsupported scheme, non-string
close argument) reject the call without invoking the callback. -/
theorem C8_callback_observer (parseURL : String → Option ParsedUrl) (socks : List String)
    (listen : ServerConfig → ListenResult) (serverClose : Server → Bool → Option String)
    (registry : Registry) (options : AnonymizeOptions) (arg : JsArg) (force cb : Bool) :
    ((anonymizeProxy parseURL socks listen registry options cb).calls
      = (if cb = true
          ∧ (anonymizeProxy parseURL socks listen registry options cb).syncThrew = false
         then [(anonymizeProxy parseURL socks listen registry options cb).result]
         else []))
    ∧ ((closeAnonymizedProxy serverClose registry arg force cb).calls
      = (if cb = true
          ∧ (closeAnonymizedProxy serverClose registry arg force cb).syncThrew = false
         then [(closeAnonymizedProxy serverClose registry arg force cb).result]
         else [])) := by
  constructor
  · unfold anonymizeProxy
    split
    · exact anonymizeProxyParsed_calls _ _ _ _ _ _ _ _
    · split
      · simp [Outcome.syncThrew, JsError.isValidation]
      · exact anonymizeProxyParsed_calls _ _ _ _ _ _ _ _
  · unfold closeAnonymizedProxy
    split
    · simp [Outcome.syncThrew, JsError.isValidation]
    · split
      · cases cb <;> simp [nodeify, Outcome.syncThrew, JsError.isValidation]
      · dsimp only
        split <;> cases cb <;> simp [nodeify, Outcome.syncThrew, JsError.isValidation]
